import Mathlib

/-!
Shallow embedding of the MerchantGuard MCP risk-assessment client
(`src/api/guardscore.ts`) and the theorems checking its specification.

Conventions of the embedding:
* JS numbers are modelled as `ℚ`.  Every numeric computation reachable in the
  claims stays on 2-decimal rationals, where IEEE-754 double arithmetic and
  the `toFixed`/`parseFloat` round-trips used by the source agree exactly with
  rational arithmetic (checked at every comparison boundary the code can hit).
* Optional string fields are `Option String`; JS truthiness (`""` and absent
  are both falsy) is modelled by `strTruthy` / `jsOrStr`.
* Wall-clock timestamp fields (`scored_at`, `verified_at`, `last_updated`)
  and purely presentational free-text fields that interpolate floating-point
  numbers (`RiskFactor.description`, `pattern_analysis`) are omitted: they
  never feed any numeric derivation and no claim mentions them.
* The remote HTTP call is modelled by a `FetchOutcome` value handed to each
  operation: the fetch can throw, or return a response with an `ok` flag, a
  status code, and a body whose JSON parse can fail.  Each operation also
  reports how many outbound fetches it issued (0 or 1).
-/

namespace MerchantGuard

/-- Sum of the character codes of a string: the checksum
`[...s].reduce((a, c) => a + c.charCodeAt(0), 0)` used by every mock. -/
def checksum (s : String) : ℕ :=
  s.data.foldl (fun a c => a + c.toNat) 0

/-- Lower-case one character (ASCII range; JS `toLowerCase` agrees on every
string these case-folds are compared against). -/
def lowerChar (c : Char) : Char :=
  if 65 ≤ c.toNat && c.toNat ≤ 90 then Char.ofNat (c.toNat + 32) else c

/-- JS `s.toLowerCase()`. -/
def lowerStr (s : String) : String :=
  String.mk (s.data.map lowerChar)

/-- JS truthiness of an optional string: absent and `""` are falsy. -/
def strTruthy : Option String → Bool
  | none => false
  | some s => !(s == "")

/-- JS `a || d` for an optional string `a` and a string default `d`. -/
def jsOrStr (a : Option String) (d : String) : String :=
  match a with
  | none => d
  | some s => if s == "" then d else s

/-- JS `Math.round`: round half toward positive infinity. -/
def jsRound (q : ℚ) : ℤ := ⌊q + 1/2⌋

/-- JS `parseFloat(q.toFixed(d))` on the non-negative rationals produced by
the mocks (all of which carry at most `d` decimals, so this is the identity
there, as it is for the corresponding IEEE doubles). -/
def toFixedQ (d : ℕ) (q : ℚ) : ℚ := (⌊q * 10 ^ d + 1/2⌋ : ℚ) / 10 ^ d

/-- Risk tiers of `RiskLevel` in `src/types/index.ts`. -/
inductive RiskLevel where
  | low | medium | high | critical
  deriving DecidableEq, Repr

/-- Numeric riskiness used to state tier monotonicity:
`critical > high > medium > low`. -/
def riskiness : RiskLevel → ℕ
  | .low => 0
  | .medium => 1
  | .high => 2
  | .critical => 3

/-- `PaymentRail` in `src/types/index.ts`. -/
inductive PaymentRail where
  | card | stablecoin | crypto | ach | wire | unknown
  deriving DecidableEq, Repr

/-- The string a `PaymentRail` value is in JS (used when a rail is
concatenated to an identifier). -/
def railStr : PaymentRail → String
  | .card => "card"
  | .stablecoin => "stablecoin"
  | .crypto => "crypto"
  | .ach => "ach"
  | .wire => "wire"
  | .unknown => "unknown"

/-- `VerificationStatus` in `src/types/index.ts`. -/
inductive VerificationStatus where
  | verified | pending | unverified | suspended | revoked
  deriving DecidableEq, Repr

/-- `DisputeType` in `src/types/index.ts`. -/
inductive DisputeType where
  | fraud | product_not_received | product_not_as_described
  | duplicate | subscription_canceled | authorization_issue
  deriving DecidableEq, Repr

/-- `VAMPStatus` in `src/types/index.ts`. -/
inductive VAMPStatus where
  | standard | monitored | excessive | at_risk
  deriving DecidableEq, Repr

/-- `authorization_level` field values of `AgentVerification`. -/
inductive AuthLevel where
  | none | basic | standard | elevated | full
  deriving DecidableEq, Repr

/-- `recommended_action` field values of `TransactionRiskResult`. -/
inductive RecommendedAction where
  | approve | review | decline
  deriving DecidableEq, Repr

/-- `monthly_trend` field values of `VAMPAnalysis`. -/
inductive Trend where
  | improving | stable | declining
  deriving DecidableEq, Repr

/-- `entity_type` field values of the velocity check request. -/
inductive EntityType where
  | merchant | agent | card | wallet
  deriving DecidableEq, Repr

/-- `GuardScoreConfig` in `src/api/guardscore.ts`. -/
structure GuardScoreConfig where
  apiUrl : String
  apiKey : String
  highRiskThreshold : ℚ
  mediumRiskThreshold : ℚ
  autoDeclineThreshold : ℚ
  deriving DecidableEq, Repr

/-- `this.demoMode = config.apiKey === "demo" || !config.apiKey` evaluated at
construction (an absent key reaches the constructor as the empty string). -/
def demoMode (cfg : GuardScoreConfig) : Bool :=
  cfg.apiKey == "demo" || cfg.apiKey == ""

/-- `GuardScoreAPI.riskLevel`: classify a score into a tier by the three
configured thresholds. -/
def riskLevel (cfg : GuardScoreConfig) (score : ℚ) : RiskLevel :=
  if score ≤ cfg.autoDeclineThreshold then .critical
  else if score ≤ cfg.highRiskThreshold then .high
  else if score ≤ cfg.mediumRiskThreshold then .medium
  else .low

/-- `recommended_action` derivation shared by the live and mock transaction
paths: `level === "critical" ? "decline" : level === "high" ? "review" :
"approve"`. -/
def actionOf (level : RiskLevel) : RecommendedAction :=
  if level == .critical then .decline
  else if level == .high then .review
  else .approve

/-- One entry of `risk_factors` (free-text `description` omitted). -/
structure RiskFactor where
  factor : String
  severity : RiskLevel
  deriving DecidableEq, Repr

/-- `TransactionRiskResult` (wall-clock `scored_at` omitted). -/
structure TransactionRiskResult where
  risk_score : ℚ
  risk_level : RiskLevel
  recommended_action : RecommendedAction
  risk_factors : List RiskFactor
  guardscore_version : String
  deriving DecidableEq, Repr

/-- Arguments of `scoreTransaction`. -/
structure TransactionArgs where
  amount : ℚ
  currency : String
  merchant_category : String
  payment_rail : PaymentRail
  merchant_id : Option String
  agent_id : Option String
  deriving DecidableEq, Repr

/-- The fixed high-risk category list of `mockScoreTransaction`. -/
def highRiskCategories : List String :=
  ["gambling", "adult", "crypto_exchange", "pharmaceuticals", "weapons"]

/-- `mockScoreTransaction`: base 85 with sequential penalties, clamped to
[0,100], tiered by the configured thresholds. -/
def mockScoreTransaction (cfg : GuardScoreConfig) (args : TransactionArgs) :
    TransactionRiskResult :=
  let score1 : ℚ :=
    if args.amount > 10000 then 85 - 20
    else if args.amount > 5000 then 85 - 10 else 85
  let factors1 : List RiskFactor :=
    if args.amount > 10000 then [⟨"high_value", .high⟩]
    else if args.amount > 5000 then [⟨"elevated_value", .medium⟩] else []
  let altRail : Bool :=
    args.payment_rail == .crypto || args.payment_rail == .stablecoin
  let score2 := if altRail then score1 - 5 else score1
  let factors2 := factors1 ++ (if altRail then [⟨"alternative_rail", .low⟩] else [])
  let score3 := if strTruthy args.agent_id then score2 - 3 else score2
  let factors3 := factors2 ++
    (if strTruthy args.agent_id then [⟨"agent_initiated", .low⟩] else [])
  let score4 := if !strTruthy args.merchant_id then score3 - 15 else score3
  let factors4 := factors3 ++
    (if !strTruthy args.merchant_id then [⟨"unknown_merchant", .high⟩] else [])
  let hrc := highRiskCategories.contains (lowerStr args.merchant_category)
  let score5 := if hrc then score4 - 15 else score4
  let factors5 := factors4 ++
    (if hrc then [⟨"high_risk_category", .high⟩] else [])
  let score := max 0 (min 100 score5)
  let level := riskLevel cfg score
  ⟨score, level, actionOf level, factors5, "1.0.0-mock"⟩

/-- `AgentVerification` (wall-clock `verified_at` omitted). -/
structure AgentVerification where
  agent_id : String
  trust_score : ℚ
  verification_status : VerificationStatus
  authorization_level : AuthLevel
  spending_limit : ℚ
  spending_limit_currency : String
  anomaly_flags : List String
  deriving DecidableEq, Repr

/-- Arguments of `verifyAgent`. -/
structure AgentVerifyArgs where
  agent_id : String
  agent_name : Option String
  requesting_action : String
  transaction_amount : Option ℚ
  deriving DecidableEq, Repr

/-- The fixed dangerous-action list of `mockVerifyAgent`. -/
def dangerousActions : List String :=
  ["refund_all", "delete_account", "transfer_funds", "modify_pricing"]

/-- `args.transaction_amount && args.transaction_amount > 5000` (any number
exceeding 5000 is truthy, so this is "present and above 5000"). -/
def amountFlag : Option ℚ → Bool
  | none => false
  | some a => decide (a > 5000)

/-- `mockVerifyAgent`: checksum-derived trust score with step-function
authorization level and spending limit. -/
def mockVerifyAgent (args : AgentVerifyArgs) : AgentVerification :=
  let hash := checksum args.agent_id
  let trustScore : ℚ := 50 + (hash % 45 : ℕ)
  let anomalies : List String :=
    (if amountFlag args.transaction_amount
      then ["transaction_exceeds_typical_agent_limit"] else []) ++
    (if dangerousActions.contains (lowerStr args.requesting_action)
      then ["high_privilege_action_requested"] else [])
  ⟨args.agent_id, trustScore,
    (if trustScore > 80 then .verified
     else if trustScore > 60 then .pending else .unverified),
    (if trustScore > 85 then .full
     else if trustScore > 70 then .standard
     else if trustScore > 50 then .basic else .none),
    (if trustScore > 80 then 10000 else if trustScore > 60 then 1000 else 100),
    "USD", anomalies⟩

/-- `MerchantProfile` (wall-clock `last_updated` omitted). -/
structure MerchantProfile where
  merchant_id : String
  name : String
  guardscore : ℚ
  risk_level : RiskLevel
  verification_status : VerificationStatus
  chargeback_rate : ℚ
  industry : String
  vamp_status : VAMPStatus
  deriving DecidableEq, Repr

/-- Arguments of `lookupMerchant`. -/
structure MerchantLookupArgs where
  merchant_id : Option String
  merchant_name : Option String
  website : Option String
  deriving DecidableEq, Repr

/-- JS `n.toString(16).toUpperCase()` for a natural number. -/
def natHexUpper (n : ℕ) : String :=
  String.mk ((Nat.toDigits 16 n).map Char.toUpper)

/-- `mockLookupMerchant`: checksum-derived guardscore from the first truthy
identifier among `merchant_id`, `merchant_name`, `website`, `"unknown"`. -/
def mockLookupMerchant (cfg : GuardScoreConfig) (args : MerchantLookupArgs) :
    MerchantProfile :=
  let identifier :=
    jsOrStr args.merchant_id (jsOrStr args.merchant_name (jsOrStr args.website "unknown"))
  let hash := checksum identifier
  let guardscore : ℚ := 40 + (hash % 55 : ℕ)
  ⟨jsOrStr args.merchant_id ("MG-" ++ natHexUpper hash),
    jsOrStr args.merchant_name identifier,
    guardscore,
    riskLevel cfg guardscore,
    (if guardscore > 70 then .verified
     else if guardscore > 50 then .pending else .unverified),
    toFixedQ 2 (1/10 + (100 - guardscore) * (2/100)),
    "e-commerce",
    (if guardscore > 70 then .standard
     else if guardscore > 50 then .monitored else .excessive)⟩

/-- `DisputePrediction` in `src/types/index.ts`. -/
structure DisputePrediction where
  dispute_probability : ℚ
  predicted_dispute_type : Option DisputeType
  risk_level : RiskLevel
  preventive_actions : List String
  model_version : String
  deriving DecidableEq, Repr

/-- Arguments of `predictDispute` (`is_recurring` is only ever used truthily,
so the absent case is modelled as `false`). -/
structure DisputeArgs where
  transaction_amount : ℚ
  merchant_category : String
  payment_rail : PaymentRail
  card_type : Option String
  is_recurring : Bool
  merchant_id : Option String
  deriving DecidableEq, Repr

/-- The fixed high-dispute category list of `mockPredictDispute`. -/
def highDisputeCategories : List String :=
  ["travel", "digital_goods", "subscription", "gambling"]

/-- `mockPredictDispute`: additive probability model clamped to
[0.01, 0.99], then tiered at 0.15 / 0.10 / 0.05. -/
def mockPredictDispute (args : DisputeArgs) : DisputePrediction :=
  let p1 : ℚ := if args.transaction_amount > 500 then 2/100 + 3/100 else 2/100
  let a1 : List String :=
    if args.transaction_amount > 500
      then ["Enable 3DS authentication for transactions over $500"] else []
  let hdc := highDisputeCategories.contains (lowerStr args.merchant_category)
  let p2 := if hdc then p1 + 5/100 else p1
  let a2 := a1 ++ (if hdc then
    ["Category \"" ++ args.merchant_category ++
      "\" has elevated dispute rates — enhance order confirmation flow"] else [])
  let cardRec := args.payment_rail == .card && args.is_recurring
  let p3 := if cardRec then p2 + 4/100 else p2
  let a3 := a2 ++ (if cardRec then
    ["Send pre-billing reminder for recurring charges to reduce friendly fraud"] else [])
  let altRail := args.payment_rail == .stablecoin || args.payment_rail == .crypto
  let p4 := if altRail then p3 - 1/100 else p3
  let a4 := a3 ++ (if altRail then
    ["Stablecoin transactions have no traditional chargeback mechanism — implement escrow or reputation-based resolution"] else [])
  let probability := min (99/100) (max (1/100) p4)
  let level : RiskLevel :=
    if probability > 15/100 then .critical
    else if probability > 10/100 then .high
    else if probability > 5/100 then .medium else .low
  let predictedType : Option DisputeType :=
    if probability > 5/100 then
      some (if args.is_recurring then .subscription_canceled
            else if args.merchant_category == "digital_goods"
              then .product_not_as_described
            else .fraud)
    else none
  ⟨toFixedQ 4 probability, predictedType, level, a4, "1.0.0-mock"⟩

/-- `VelocityResult` (presentational `pattern_analysis` string omitted). -/
structure VelocityResult where
  entity_id : String
  velocity_score : ℤ
  anomaly_detected : Bool
  transactions_in_window : ℚ
  baseline_average : ℚ
  time_window : String
  deriving DecidableEq, Repr

/-- Arguments of `checkVelocity`. -/
structure VelocityArgs where
  entity_id : String
  entity_type : EntityType
  time_window : String
  transaction_count : Option ℚ
  deriving DecidableEq, Repr

/-- `mockCheckVelocity`: checksum-derived baseline, anomaly when the
current/baseline ratio exceeds 2.5, score clamped to [0,100] and rounded. -/
def mockCheckVelocity (args : VelocityArgs) : VelocityResult :=
  let hash := checksum args.entity_id
  let baseline : ℚ := 15 + (hash % 30 : ℕ)
  let current : ℚ := args.transaction_count.getD (baseline + (hash % 20 : ℕ) - 5)
  let ratio := current / baseline
  let anomaly : Bool := decide (ratio > 5/2)
  let score := min 100 (max 0 (100 - (ratio - 1) * 30))
  ⟨args.entity_id, jsRound score, anomaly, current, baseline, args.time_window⟩

/-- `CrossRailResult`; `rail_scores` is the JS object modelled as an
association list keyed by first occurrence (duplicate rails in the request
re-assign the identical deterministic score). -/
structure CrossRailResult where
  entity_id : String
  cross_rail_risk_score : ℤ
  risk_level : RiskLevel
  rails_analyzed : List PaymentRail
  suspicious_patterns : List String
  rail_scores : List (PaymentRail × ℚ)
  deriving DecidableEq, Repr

/-- Arguments of `checkCrossRail` (the schema enforces at least two rails). -/
structure CrossRailArgs where
  entity_id : String
  payment_rails : List PaymentRail
  deriving DecidableEq, Repr

/-- JS `Math.max(...scores)` (the empty case is unreachable: the schema
requires at least two rails). -/
def listMax : List ℚ → ℚ
  | [] => 0
  | x :: xs => xs.foldl max x

/-- JS `Math.min(...scores)` (empty case unreachable, as for `listMax`). -/
def listMin : List ℚ → ℚ
  | [] => 0
  | x :: xs => xs.foldl min x

/-- `mockCheckCrossRail`: per-rail checksum scores, three pattern flags, and
an average-minus-penalties aggregate floored at 0. -/
def mockCheckCrossRail (cfg : GuardScoreConfig) (args : CrossRailArgs) :
    CrossRailResult :=
  let keys := args.payment_rails.eraseDups
  let railScores : List (PaymentRail × ℚ) :=
    keys.map (fun r =>
      (r, (50 + (checksum (args.entity_id ++ railStr r) % 45 : ℕ) : ℚ)))
  let scores := railScores.map (fun p => p.2)
  let maxDiff := listMax scores - listMin scores
  let patterns : List String :=
    (if maxDiff > 30 then
      ["Large risk score variance across rails — possible rail-hopping to evade detection"] else []) ++
    (if args.payment_rails.contains .card && args.payment_rails.contains .crypto then
      ["Mixed card + crypto activity — monitor for card-funded crypto purchases followed by irreversible transfers"] else []) ++
    (if args.payment_rails.length ≥ 3 then
      ["Activity across 3+ payment rails — unusual for single entity, verify legitimate business need"] else [])
  let avgScore := (scores.foldl (· + ·) 0) / (scores.length : ℚ)
  let crossRailScore := jsRound (max 0 (avgScore - (patterns.length : ℚ) * 10))
  ⟨args.entity_id, crossRailScore, riskLevel cfg (crossRailScore : ℚ),
    args.payment_rails, patterns, railScores⟩

/-- `VAMPAnalysis` result in `src/types/index.ts`. -/
structure VAMPAnalysis where
  merchant_id : String
  vamp_score : ℤ
  vamp_status : VAMPStatus
  fraud_rate : ℚ
  dispute_rate : ℚ
  monthly_trend : Trend
  recommended_actions : List String
  visa_threshold_distance : ℚ
  deriving DecidableEq, Repr

/-- Arguments of `analyzeVAMP`. -/
structure VAMPArgs where
  merchant_id : String
  visa_merchant_id : Option String
  deriving DecidableEq, Repr

/-- The mock fraud rate: `parseFloat((0.1 + (hash % 20) * 0.05).toFixed(2))`. -/
def mockFraudRate (mid : String) : ℚ :=
  toFixedQ 2 (1/10 + (checksum mid % 20 : ℕ) * (5/100))

/-- The mock dispute rate: `parseFloat((0.2 + (hash % 25) * 0.04).toFixed(2))`. -/
def mockDisputeRate (mid : String) : ℚ :=
  toFixedQ 2 (2/10 + (checksum mid % 25 : ℕ) * (4/100))

/-- `mockAnalyzeVAMP`: status from the fraud rate at the 0.65 / 0.9 cut
points, with escalating remediation actions. -/
def mockAnalyzeVAMP (args : VAMPArgs) : VAMPAnalysis :=
  let fraudRate := mockFraudRate args.merchant_id
  let disputeRate := mockDisputeRate args.merchant_id
  let vampScore : ℤ := jsRound (100 - fraudRate * 20 - disputeRate * 15)
  let status : VAMPStatus :=
    if fraudRate < 65/100 then .standard
    else if fraudRate < 9/10 then .monitored else .excessive
  let thresholdDistance : ℚ :=
    if fraudRate < 65/100 then toFixedQ 2 (65/100 - fraudRate)
    else if fraudRate < 9/10 then toFixedQ 2 (9/10 - fraudRate) else 0
  let statusActions : List String :=
    if fraudRate < 65/100 then []
    else if fraudRate < 9/10 then
      ["Implement RDR (Rapid Dispute Resolution) to deflect disputes before they count as chargebacks",
       "Enable Verifi CDRN alerts for real-time chargeback notification"]
    else
      ["URGENT: Fraud rate exceeds Visa VAMP threshold — immediate remediation required",
       "Deploy 3DS on all transactions to shift liability",
       "Implement velocity controls and device fingerprinting",
       "Consider temporary transaction limits on high-risk categories"]
  let actions := statusActions ++
    (if disputeRate > 1/2 then
      ["High dispute rate — review product descriptions and refund policy clarity"] else [])
  ⟨args.merchant_id, max 0 vampScore, status, fraudRate, disputeRate,
    (if vampScore > 70 then .improving
     else if vampScore > 40 then .stable else .declining),
    actions, thresholdDistance⟩

/-- Outcome of the single outbound `fetch` of an operation: the fetch can
reject (network error), or produce a response with an `ok` flag (status in
the 2xx range), a status code, and a body whose JSON parse either fails
(malformed body — `res.json()` throws inside the same `try`) or yields a
typed payload `α`. -/
inductive FetchOutcome (α : Type) where
  | throws
  | resp (ok : Bool) (status : ℕ) (body : Except Unit α)

/-- Replace every run of whitespace by one underscore, tracking whether the
previous character was whitespace: JS `replace(/\s+/g, "_")`. -/
def wsRepl : Bool → List Char → List Char
  | _, [] => []
  | prevWs, c :: cs =>
    if c.isWhitespace then
      (if prevWs then wsRepl true cs else '_' :: wsRepl true cs)
    else c :: wsRepl false cs

/-- `insight.title?.replace(/\s+/g, "_").toLowerCase().slice(0, 40) ||
"unknown"`. -/
def normTitle : Option String → String
  | none => "unknown"
  | some t =>
    let r := String.mk (((lowerStr (String.mk (wsRepl false t.data))).data).take 40)
    if r == "" then "unknown" else r

/-- `GuardScoreAPI.mapSeverity` (an absent severity behaves like an
unrecognized one). -/
def mapSeverity (sev : String) : RiskLevel :=
  if sev == "critical" then .critical
  else if sev == "warning" then .high
  else if sev == "info" then .medium
  else .low

/-- `GuardScoreAPI.mapVampStatus`. -/
def mapVampStatus (status : Option String) : VAMPStatus :=
  if status == some "at_risk" || status == some "excessive" then .excessive
  else if status == some "warning" || status == some "monitored" then .monitored
  else .standard

/-- `GuardScoreAPI.mapCapability`. -/
def mapCapability (cap : Option String) : AuthLevel :=
  if cap == some "PAYMENT_EXECUTE" || cap == some "ORCHESTRATE" then .full
  else if cap == some "PAYMENT_INITIATE" then .elevated
  else if cap == some "DATA_WRITE" then .standard
  else if cap == some "READ_ONLY" then .basic
  else .none

/-- `GuardScoreAPI.mapRiskLevel`. -/
def mapRiskLevel (level : Option String) : RiskLevel :=
  if level == some "critical" then .critical
  else if level == some "high" then .high
  else if level == some "medium" then .medium
  else .low

/-- One element of the `insights` array of the assess endpoint. -/
structure AssessInsight where
  severity : String
  title : Option String

/-- Parsed JSON body of `POST /api/v2/guardscore/assess` as the client reads
it (all remote fields optional). -/
structure AssessPayload where
  score : Option ℚ
  insights : Option (List AssessInsight)
  scoring_version : Option String

/-- `scoreTransaction`: demo mode skips the network; a 2xx response is
normalized; every failure falls back to `mockScoreTransaction`.  The second
component counts outbound fetches. -/
def scoreTransaction (cfg : GuardScoreConfig)
    (remote : FetchOutcome AssessPayload) (args : TransactionArgs) :
    TransactionRiskResult × ℕ :=
  if demoMode cfg then (mockScoreTransaction cfg args, 0)
  else
    match remote with
    | .throws => (mockScoreTransaction cfg args, 1)
    | .resp ok _ body =>
      if ok then
        match body with
        | .error _ => (mockScoreTransaction cfg args, 1)
        | .ok data =>
          let score := data.score.getD 75
          let level := riskLevel cfg score
          let factors := ((data.insights.getD []).take 5).map
            (fun i => (⟨normTitle i.title, mapSeverity i.severity⟩ : RiskFactor))
          let factors := factors ++
            (if strTruthy args.agent_id then [⟨"agent_initiated", .low⟩] else [])
          (⟨score, level, actionOf level, factors,
            jsOrStr data.scoring_version "2.0"⟩, 1)
      else (mockScoreTransaction cfg args, 1)

/-- The `compliance` sub-object of the merchant endpoint. -/
structure MerchantCompliance where
  chargeback_rate : Option ℚ
  vamp_status : Option String

/-- Parsed JSON body of `GET /api/agent/merchant/[id]`; `kyb_verified` is the
truthiness of `data.verification?.kyb_verified`. -/
structure MerchantPayload where
  merchant_id : Option String
  guardscore : Option ℚ
  compliance : Option MerchantCompliance
  kyb_verified : Bool

/-- `lookupMerchant`: the remote path runs only when not in demo mode AND a
truthy `merchant_id` was supplied; otherwise the mock is returned with zero
outbound calls. -/
def lookupMerchant (cfg : GuardScoreConfig)
    (remote : FetchOutcome MerchantPayload) (args : MerchantLookupArgs) :
    MerchantProfile × ℕ :=
  let identifier :=
    jsOrStr args.merchant_id (jsOrStr args.merchant_name (jsOrStr args.website "unknown"))
  if !demoMode cfg && strTruthy args.merchant_id then
    match remote with
    | .throws => (mockLookupMerchant cfg args, 1)
    | .resp ok _ body =>
      if ok then
        match body with
        | .error _ => (mockLookupMerchant cfg args, 1)
        | .ok data =>
          let guardscore := data.guardscore.getD 50
          (⟨jsOrStr data.merchant_id (args.merchant_id.getD ""),
            jsOrStr args.merchant_name (jsOrStr data.merchant_id identifier),
            guardscore,
            riskLevel cfg guardscore,
            (if data.kyb_verified then .verified else .pending),
            ((data.compliance.bind (fun c => c.chargeback_rate)).getD (1/2)),
            "e-commerce",
            mapVampStatus (data.compliance.bind (fun c => c.vamp_status))⟩, 1)
      else (mockLookupMerchant cfg args, 1)
  else (mockLookupMerchant cfg args, 0)

/-- Parsed JSON body of `POST /api/v2/agent/screen`. -/
structure ScreenPayload where
  verdict : Option String
  capabilityLevel : Option String
  denialReason : Option String
  requiredScreenings : Option (List String)

/-- `verifyAgent`: demo mode skips the network; any failure (including the
expected 401/403) falls back to `mockVerifyAgent`. -/
def verifyAgent (cfg : GuardScoreConfig)
    (remote : FetchOutcome ScreenPayload) (args : AgentVerifyArgs) :
    AgentVerification × ℕ :=
  if demoMode cfg then (mockVerifyAgent args, 0)
  else
    match remote with
    | .throws => (mockVerifyAgent args, 1)
    | .resp ok _ body =>
      if ok then
        match body with
        | .error _ => (mockVerifyAgent args, 1)
        | .ok data =>
          let trustScore : ℚ :=
            if data.verdict == some "ALLOW" then 85
            else if data.verdict == some "ENHANCED_SCREENING" then 55 else 20
          let anomalies :=
            (if strTruthy data.denialReason then [data.denialReason.getD ""] else []) ++
            (data.requiredScreenings.getD [])
          (⟨args.agent_id, trustScore,
            (if data.verdict == some "ALLOW" then .verified
             else if data.verdict == some "DENY" then .suspended else .pending),
            mapCapability data.capabilityLevel,
            (if data.capabilityLevel == some "PAYMENT_EXECUTE" then 10000
             else if data.capabilityLevel == some "PAYMENT_INITIATE" then 1000
             else 100),
            "USD", anomalies⟩, 1)
      else (mockVerifyAgent args, 1)

/-- One element of the simulator's `rankedActions` array. -/
structure RankedAction where
  action : Option String
  impact : Option String
  description : Option String

/-- The simulator's `simulation` sub-object. -/
structure Simulation where
  currentVampPct : Option ℚ
  projectedVampPct : Option ℚ
  rankedActions : Option (List RankedAction)

/-- Parsed JSON body of `POST /api/v2/guardscore/simulate`; `engine` is
`(data.meta)?.engine`. -/
structure SimulatePayload where
  simulation : Option Simulation
  engine : Option String

/-- JS template interpolation of a possibly-absent string
(absent prints as "undefined"). -/
def optJsStr : Option String → String
  | none => "undefined"
  | some s => s

/-- `predictDispute`: a 2xx response lacking the `simulation` object also
falls back to the mock. -/
def predictDispute (cfg : GuardScoreConfig)
    (remote : FetchOutcome SimulatePayload) (args : DisputeArgs) :
    DisputePrediction × ℕ :=
  if demoMode cfg then (mockPredictDispute args, 0)
  else
    match remote with
    | .throws => (mockPredictDispute args, 1)
    | .resp ok _ body =>
      if ok then
        match body with
        | .error _ => (mockPredictDispute args, 1)
        | .ok data =>
          match data.simulation with
          | none => (mockPredictDispute args, 1)
          | some sim =>
            let currentVamp := sim.currentVampPct.getD (1/2)
            let probability := min (99/100) (max (1/100) (currentVamp / 100))
            let level : RiskLevel :=
              if probability > 15/100 then .critical
              else if probability > 10/100 then .high
              else if probability > 5/100 then .medium else .low
            let actions := ((sim.rankedActions.getD []).map
              (fun a => optJsStr a.action ++ ": " ++ optJsStr a.impact)).take 5
            (⟨toFixedQ 4 probability,
              some (if args.is_recurring then .subscription_canceled else .fraud),
              level,
              (if actions.length > 0 then actions else
                ["Enable 3D Secure on all transactions",
                 "Implement RDR (Rapid Dispute Resolution)",
                 "Add velocity checks"]),
              jsOrStr data.engine "MerchantGuard VAMP Simulator v1.0"⟩, 1)
      else (mockPredictDispute args, 1)

/-- `checkVelocity`: no remote endpoint exists for this operation — it always
returns the mock and issues zero outbound calls, in demo and live mode. -/
def checkVelocity (_cfg : GuardScoreConfig) (args : VelocityArgs) :
    VelocityResult × ℕ :=
  (mockCheckVelocity args, 0)

/-- Parsed JSON body of `POST /api/v2/guard`. -/
structure GuardPayload where
  decision : Option String
  risk_level : Option String
  reasons : Option (List String)

/-- `checkCrossRail`: demo mode skips the network; any failure (including the
expected 401/403) falls back to `mockCheckCrossRail`. -/
def checkCrossRail (cfg : GuardScoreConfig)
    (remote : FetchOutcome GuardPayload) (args : CrossRailArgs) :
    CrossRailResult × ℕ :=
  if demoMode cfg then (mockCheckCrossRail cfg args, 0)
  else
    match remote with
    | .throws => (mockCheckCrossRail cfg args, 1)
    | .resp ok _ body =>
      if ok then
        match body with
        | .error _ => (mockCheckCrossRail cfg args, 1)
        | .ok data =>
          let crossRailScore : ℤ :=
            if data.decision == some "allow" then 80
            else if data.decision == some "allow_with_conditions" then 55 else 25
          let railScores : List (PaymentRail × ℚ) :=
            (args.payment_rails.eraseDups).map (fun r =>
              (r, (crossRailScore : ℚ) +
                (if r == .crypto then -10 else if r == .card then 5 else 0)))
          (⟨args.entity_id, crossRailScore,
            mapRiskLevel data.risk_level,
            args.payment_rails,
            data.reasons.getD [],
            railScores⟩, 1)
      else (mockCheckCrossRail cfg args, 1)

/-- `analyzeVAMP`: a 2xx response lacking the `simulation` object also falls
back to the mock. -/
def analyzeVAMP (cfg : GuardScoreConfig)
    (remote : FetchOutcome SimulatePayload) (args : VAMPArgs) :
    VAMPAnalysis × ℕ :=
  if demoMode cfg then (mockAnalyzeVAMP args, 0)
  else
    match remote with
    | .throws => (mockAnalyzeVAMP args, 1)
    | .resp ok _ body =>
      if ok then
        match body with
        | .error _ => (mockAnalyzeVAMP args, 1)
        | .ok data =>
          match data.simulation with
          | none => (mockAnalyzeVAMP args, 1)
          | some sim =>
            let currentVamp := sim.currentVampPct.getD (1/2)
            let projectedVamp := sim.projectedVampPct.getD currentVamp
            let actions := ((((sim.rankedActions.getD []).map
              (fun a => jsOrStr a.action (jsOrStr a.description ""))).filter
                (fun s => !(s == ""))).take 5)
            let status : VAMPStatus :=
              if currentVamp < 65/100 then .standard
              else if currentVamp < 9/10 then .monitored else .excessive
            let vampScore : ℤ := jsRound (100 - currentVamp * 50)
            let trend : Trend :=
              if projectedVamp < currentVamp then .improving
              else if projectedVamp > currentVamp then .declining else .stable
            (⟨args.merchant_id, max 0 vampScore, status,
              toFixedQ 2 currentVamp,
              toFixedQ 2 (currentVamp * (3/2)),
              trend,
              (if actions.length > 0 then actions else
                ["Enable 3D Secure 2.0 on all transactions",
                 "Enroll in Visa RDR",
                 "Add Ethoca/Verifi alerts"]),
              toFixedQ 2 (max 0 (9/10 - currentVamp))⟩, 1)
      else (mockAnalyzeVAMP args, 1)

/-- The transaction score exactly as the specification words it: base 85
minus independent penalties (the amount penalties are mutually exclusive),
before the final clamp. -/
def specTxScore (args : TransactionArgs) : ℚ :=
  85 - (if args.amount > 10000 then 20 else if args.amount > 5000 then 10 else 0)
     - (if args.payment_rail = .crypto ∨ args.payment_rail = .stablecoin then 5 else 0)
     - (if strTruthy args.agent_id then 3 else 0)
     - (if strTruthy args.merchant_id = false then 15 else 0)
     - (if lowerStr args.merchant_category ∈ highRiskCategories then 15 else 0)

/-- The dispute probability exactly as the specification words it, before
the [0.01, 0.99] clamp. -/
def specDisputeRaw (args : DisputeArgs) : ℚ :=
  2/100 + (if args.transaction_amount > 500 then 3/100 else 0)
        + (if lowerStr args.merchant_category ∈ highDisputeCategories then 5/100 else 0)
        + (if args.payment_rail = .card ∧ args.is_recurring then 4/100 else 0)
        - (if args.payment_rail = .stablecoin ∨ args.payment_rail = .crypto then 1/100 else 0)

/-- The clamped dispute probability of the specification. -/
def specDisputeProb (args : DisputeArgs) : ℚ :=
  min (99/100) (max (1/100) (specDisputeRaw args))

/-- A demo-mode configuration with the server's default thresholds
(high 30, medium 60, auto-decline 15). -/
def sampleDemoCfg : GuardScoreConfig :=
  ⟨"https://api.merchantguard.ai/v1", "demo", 30, 60, 15⟩

/-- A live-mode configuration with the server's default thresholds. -/
def sampleLiveCfg : GuardScoreConfig :=
  ⟨"https://api.merchantguard.ai/v1", "sk_live_key", 30, 60, 15⟩

/-- The scenario transaction of §8 of the spec: amount 15000, category
gambling, rail card, no merchant or agent id. -/
def scenarioTxArgs : TransactionArgs :=
  ⟨15000, "USD", "gambling", .card, none, none⟩

/-- A sample velocity request used by witnesses. -/
def sampleVelArgs : VelocityArgs :=
  ⟨"M1", .merchant, "24h", none⟩

-- ===========================================================================
-- Shared helper lemmas
-- ===========================================================================

theorem actionOf_decline_iff (l : RiskLevel) :
    actionOf l = .decline ↔ l = .critical := by
  cases l <;> simp [actionOf]

theorem actionOf_review_iff (l : RiskLevel) :
    actionOf l = .review ↔ l = .high := by
  cases l <;> simp [actionOf]

theorem actionOf_approve_iff (l : RiskLevel) :
    actionOf l = .approve ↔ (l ≠ .critical ∧ l ≠ .high) := by
  cases l <;> simp [actionOf]

theorem contains_iff {l : List String} {s : String} :
    l.contains s = true ↔ s ∈ l := by
  simp [List.contains, List.elem_iff]

theorem mockScoreTransaction_score_eq (cfg : GuardScoreConfig)
    (args : TransactionArgs) :
    (mockScoreTransaction cfg args).risk_score = specTxScore args ∧
    27 ≤ specTxScore args ∧ specTxScore args ≤ 85 := by
  refine ⟨?_, ?_, ?_⟩ <;>
  · simp only [mockScoreTransaction, specTxScore, Bool.or_eq_true, beq_iff_eq,
      Bool.not_eq_true', contains_iff]
    split_ifs <;> norm_num

-- ===========================================================================
-- Claim theorems
-- ===========================================================================

/-- C6: for every pair of scores s1 < s2 and every threshold configuration
(including configurations violating the ordering invariant), the tier
assigned to s1 is never strictly less risky than the tier assigned to s2,
under the ordering critical > high > medium > low. -/
theorem riskLevel_tier_monotone (cfg : GuardScoreConfig) (s1 s2 : ℚ)
    (h : s1 < s2) :
    riskiness (riskLevel cfg s2) ≤ riskiness (riskLevel cfg s1) := by
  unfold riskLevel
  split_ifs <;> simp [riskiness] <;> linarith

/-- Witness for C6 at scores 10 < 20 under the default demo configuration. -/
theorem riskLevel_tier_monotone_witness :
    riskiness (riskLevel sampleDemoCfg 20) ≤ riskiness (riskLevel sampleDemoCfg 10) :=
  riskLevel_tier_monotone sampleDemoCfg 10 20 (by norm_num)

/-- C4 counterexample: the agent id "z" has checksum 122, hence trust score
50 + (122 mod 45) = 82.  With 70 < 82 ≤ 85 the claim assigns tier standard
with spending limit 1,000, but the code pairs tier standard with limit
10,000 here, because the spending limit steps at 80/60 rather than at the
claimed 85/70/50 cut points. -/
theorem mockVerifyAgent_limit_counterexample :
    (mockVerifyAgent ⟨"z", none, "purchase", none⟩).trust_score = 82 ∧
    (mockVerifyAgent ⟨"z", none, "purchase", none⟩).authorization_level = .standard ∧
    (mockVerifyAgent ⟨"z", none, "purchase", none⟩).spending_limit ≠ 1000 := by
  have h : checksum "z" = 122 := rfl
  have h2 : lowerStr "purchase" ∉ dangerousActions := by decide
  simp [mockVerifyAgent, h, h2, amountFlag]
  norm_num

/-- C4 amended: the trust score is 50 + (checksum mod 45); the two anomaly
flags are added independently exactly as claimed; the authorization tier
steps at 85/70/50 as claimed; but the spending limit is a separate step
function of the trust score with cut points 80 and 60: above 80 the limit is
10,000, above 60 it is 1,000, otherwise 100. -/
theorem mockVerifyAgent_step_functions (args : AgentVerifyArgs) :
    (mockVerifyAgent args).trust_score = 50 + ((checksum args.agent_id % 45 : ℕ) : ℚ) ∧
    (mockVerifyAgent args).authorization_level =
      (if (mockVerifyAgent args).trust_score > 85 then .full
       else if (mockVerifyAgent args).trust_score > 70 then .standard
       else if (mockVerifyAgent args).trust_score > 50 then .basic else .none) ∧
    (mockVerifyAgent args).spending_limit =
      (if (mockVerifyAgent args).trust_score > 80 then 10000
       else if (mockVerifyAgent args).trust_score > 60 then 1000 else 100) ∧
    (mockVerifyAgent args).anomaly_flags =
      (if amountFlag args.transaction_amount
        then ["transaction_exceeds_typical_agent_limit"] else []) ++
      (if lowerStr args.requesting_action ∈ dangerousActions
        then ["high_privilege_action_requested"] else []) := by
  refine ⟨rfl, rfl, rfl, ?_⟩
  simp only [mockVerifyAgent, contains_iff]

/-- C8: when `transaction_count` is omitted, the synthesized current count
is at most baseline + 14 while the baseline is at least 15, so the
current/baseline ratio never exceeds the 2.5 anomaly cutoff and
`anomaly_detected` is false. -/
theorem mockCheckVelocity_default_no_anomaly (eid tw : String) (et : EntityType) :
    (mockCheckVelocity ⟨eid, et, tw, none⟩).anomaly_detected = false ∧
    (mockCheckVelocity ⟨eid, et, tw, none⟩).transactions_in_window ≤
      (mockCheckVelocity ⟨eid, et, tw, none⟩).baseline_average + 14 ∧
    15 ≤ (mockCheckVelocity ⟨eid, et, tw, none⟩).baseline_average := by
  have h20 : (checksum eid % 20 : ℕ) ≤ 19 :=
    Nat.le_of_lt_succ (Nat.mod_lt _ (by norm_num))
  have hk : ((checksum eid % 20 : ℕ) : ℚ) ≤ 19 := by exact_mod_cast h20
  have hm : (0:ℚ) ≤ ((checksum eid % 30 : ℕ) : ℚ) := Nat.cast_nonneg _
  have hb : (0:ℚ) < 15 + ((checksum eid % 30 : ℕ) : ℚ) := by positivity
  refine ⟨?_, ?_, ?_⟩
  · simp only [mockCheckVelocity, Option.getD_none]
    rw [decide_eq_false_iff_not, not_lt, div_le_iff₀ hb]
    linarith
  · simp only [mockCheckVelocity, Option.getD_none]
    linarith
  · simp only [mockCheckVelocity]
    linarith

/-- C10: the mock transaction risk score always lies in [27, 85] and equals
the unclamped penalty formula — the final clamp to [0,100] never changes
the computed value. -/
theorem mockScoreTransaction_clamp_identity (cfg : GuardScoreConfig)
    (args : TransactionArgs) :
    (mockScoreTransaction cfg args).risk_score = specTxScore args ∧
    27 ≤ (mockScoreTransaction cfg args).risk_score ∧
    (mockScoreTransaction cfg args).risk_score ≤ 85 := by
  obtain ⟨h1, h2, h3⟩ := mockScoreTransaction_score_eq cfg args
  exact ⟨h1, h1 ▸ h2, h1 ▸ h3⟩

/-- C3: the mock transaction risk score equals base 85 minus the independent
penalties of the spec, clamped to [0,100]; the recommended action is decline
exactly when the tier is critical, review exactly when it is high, and
approve otherwise; and the §8 scenario (amount 15000, category gambling,
rail card, demo mode) yields a score of at most 50 whose risk factors
contain both high_value and high_risk_category. -/
theorem mockScoreTransaction_matches_spec :
    (∀ (cfg : GuardScoreConfig) (args : TransactionArgs),
      (mockScoreTransaction cfg args).risk_score =
        max 0 (min 100 (specTxScore args)) ∧
      ((mockScoreTransaction cfg args).recommended_action = .decline ↔
        (mockScoreTransaction cfg args).risk_level = .critical) ∧
      ((mockScoreTransaction cfg args).recommended_action = .review ↔
        (mockScoreTransaction cfg args).risk_level = .high) ∧
      ((mockScoreTransaction cfg args).recommended_action = .approve ↔
        ((mockScoreTransaction cfg args).risk_level ≠ .critical ∧
         (mockScoreTransaction cfg args).risk_level ≠ .high))) ∧
    (∀ (url : String) (t1 t2 t3 : ℚ) (remote : FetchOutcome AssessPayload),
      (scoreTransaction ⟨url, "demo", t1, t2, t3⟩ remote scenarioTxArgs).1.risk_score ≤ 50 ∧
      "high_value" ∈ ((scoreTransaction ⟨url, "demo", t1, t2, t3⟩ remote
        scenarioTxArgs).1.risk_factors.map RiskFactor.factor) ∧
      "high_risk_category" ∈ ((scoreTransaction ⟨url, "demo", t1, t2, t3⟩ remote
        scenarioTxArgs).1.risk_factors.map RiskFactor.factor)) := by
  constructor
  · intro cfg args
    obtain ⟨h1, h2, h3⟩ := mockScoreTransaction_score_eq cfg args
    refine ⟨?_, ?_, ?_, ?_⟩
    · rw [h1, min_eq_right (by linarith), max_eq_right (by linarith)]
    · simp only [mockScoreTransaction]
      exact actionOf_decline_iff _
    · simp only [mockScoreTransaction]
      exact actionOf_review_iff _
    · simp only [mockScoreTransaction]
      exact actionOf_approve_iff _
  · intro url t1 t2 t3 remote
    have hm : lowerStr "gambling" ∈ highRiskCategories := by decide
    refine ⟨?_, ?_, ?_⟩ <;>
    · norm_num [scoreTransaction, demoMode, mockScoreTransaction, hm, strTruthy,
        scenarioTxArgs]
      try split_ifs <;> norm_num

theorem toFixedQ_int_div (d : ℕ) (n : ℤ) :
    toFixedQ d ((n : ℚ) / 10 ^ d) = (n : ℚ) / 10 ^ d := by
  unfold toFixedQ
  rw [div_mul_cancel₀ _ (by positivity : ((10 : ℚ) ^ d) ≠ 0), add_comm,
    Int.floor_add_int]
  norm_num

theorem mockFraudRate_eq (mid : String) :
    mockFraudRate mid = 1/10 + ((checksum mid % 20 : ℕ) : ℚ) * (5/100) := by
  unfold mockFraudRate
  set k : ℕ := checksum mid % 20 with hk
  have h : (1/10 + (k : ℚ) * (5/100)) =
      (((10 + 5 * k : ℕ) : ℤ) : ℚ) / 10 ^ 2 := by
    push_cast
    ring
  rw [h, toFixedQ_int_div]

theorem mockDisputeRate_eq (mid : String) :
    mockDisputeRate mid = 2/10 + ((checksum mid % 25 : ℕ) : ℚ) * (4/100) := by
  unfold mockDisputeRate
  set k : ℕ := checksum mid % 25 with hk
  have h : (2/10 + (k : ℚ) * (4/100)) =
      (((20 + 4 * k : ℕ) : ℤ) : ℚ) / 10 ^ 2 := by
    push_cast
    ring
  rw [h, toFixedQ_int_div]

theorem jsRound_nonneg {q : ℚ} (h : 0 ≤ q) : 0 ≤ jsRound q := by
  unfold jsRound
  have h1 : ⌊(1/2 : ℚ)⌋ ≤ ⌊q + 1/2⌋ := Int.floor_mono (by linarith)
  have h2 : ⌊(1/2 : ℚ)⌋ = 0 := by norm_num
  omega

theorem jsRound_le_hundred {q : ℚ} (h : q ≤ 100) : jsRound q ≤ 100 := by
  unfold jsRound
  have h1 : ⌊q + 1/2⌋ ≤ ⌊(201/2 : ℚ)⌋ := Int.floor_mono (by linarith)
  have h2 : ⌊(201/2 : ℚ)⌋ = 100 := by norm_num
  omega

theorem natMod_cast_lt (n m : ℕ) (h : 0 < m) : ((n % m : ℕ) : ℚ) < m := by
  exact_mod_cast Nat.mod_lt n h

set_option maxHeartbeats 1000000 in
theorem mockPredictDispute_eval (args : DisputeArgs) :
    (mockPredictDispute args).dispute_probability = specDisputeProb args ∧
    (mockPredictDispute args).risk_level =
      (if specDisputeProb args > 15/100 then .critical
       else if specDisputeProb args > 10/100 then .high
       else if specDisputeProb args > 5/100 then .medium else .low) ∧
    (mockPredictDispute args).predicted_dispute_type =
      (if specDisputeProb args > 5/100 then
        some (if args.is_recurring then .subscription_canceled
              else if args.merchant_category = "digital_goods"
                then .product_not_as_described
              else .fraud)
       else none) := by
  refine ⟨?_, ?_, ?_⟩ <;>
  · simp only [mockPredictDispute, specDisputeProb, specDisputeRaw,
      Bool.or_eq_true, Bool.and_eq_true, beq_iff_eq, contains_iff]
    by_cases c1 : args.transaction_amount > 500 <;>
    by_cases c2 : lowerStr args.merchant_category ∈ highDisputeCategories <;>
    by_cases c3 : args.payment_rail = PaymentRail.card ∧ args.is_recurring = true <;>
    by_cases c4 : args.payment_rail = PaymentRail.stablecoin ∨
      args.payment_rail = PaymentRail.crypto <;>
    (try simp [c1, c2, c3, c4]) <;> (try norm_num [toFixedQ, min_def, max_def])

/-- C5: the mock dispute probability equals the additive model of the spec
clamped to [0.01, 0.99]; the risk level is cut at 0.15 / 0.10 / 0.05; and
the predicted dispute type is null unless the probability exceeds 0.05, in
which case it is subscription_canceled when recurring, else
product_not_as_described for category digital_goods, else fraud. -/
theorem mockPredictDispute_matches_spec (args : DisputeArgs) :
    (mockPredictDispute args).dispute_probability = specDisputeProb args ∧
    (mockPredictDispute args).risk_level =
      (if specDisputeProb args > 15/100 then .critical
       else if specDisputeProb args > 10/100 then .high
       else if specDisputeProb args > 5/100 then .medium else .low) ∧
    (mockPredictDispute args).predicted_dispute_type =
      (if specDisputeProb args > 5/100 then
        some (if args.is_recurring then .subscription_canceled
              else if args.merchant_category = "digital_goods"
                then .product_not_as_described
              else .fraud)
       else none) :=
  mockPredictDispute_eval args

/-- C7: the numeric result fields of every mock generator lie in their
declared ranges — transaction risk score, merchant guardscore, VAMP score
and velocity score in [0,100], dispute probability in [0.01, 0.99]. -/
theorem result_numeric_ranges :
    (∀ (cfg : GuardScoreConfig) (args : TransactionArgs),
      0 ≤ (mockScoreTransaction cfg args).risk_score ∧
      (mockScoreTransaction cfg args).risk_score ≤ 100) ∧
    (∀ (cfg : GuardScoreConfig) (args : MerchantLookupArgs),
      0 ≤ (mockLookupMerchant cfg args).guardscore ∧
      (mockLookupMerchant cfg args).guardscore ≤ 100) ∧
    (∀ args : VAMPArgs,
      0 ≤ (mockAnalyzeVAMP args).vamp_score ∧
      (mockAnalyzeVAMP args).vamp_score ≤ 100) ∧
    (∀ args : VelocityArgs,
      0 ≤ (mockCheckVelocity args).velocity_score ∧
      (mockCheckVelocity args).velocity_score ≤ 100) ∧
    (∀ args : DisputeArgs,
      1/100 ≤ (mockPredictDispute args).dispute_probability ∧
      (mockPredictDispute args).dispute_probability ≤ 99/100) := by
  refine ⟨?_, ?_, ?_, ?_, ?_⟩
  · intro cfg args
    simp only [mockScoreTransaction]
    exact ⟨le_max_left _ _, max_le (by norm_num) (min_le_left _ _)⟩
  · intro cfg args
    simp only [mockLookupMerchant]
    have h := natMod_cast_lt (checksum (jsOrStr args.merchant_id
      (jsOrStr args.merchant_name (jsOrStr args.website "unknown")))) 55
      (by norm_num)
    push_cast at h
    constructor
    · positivity
    · linarith
  · intro args
    simp only [mockAnalyzeVAMP]
    refine ⟨le_max_left _ _, max_le (by norm_num) ?_⟩
    have hf : 1/10 ≤ mockFraudRate args.merchant_id := by
      rw [mockFraudRate_eq]
      have : (0:ℚ) ≤ ((checksum args.merchant_id % 20 : ℕ) : ℚ) := Nat.cast_nonneg _
      linarith
    have hd : 2/10 ≤ mockDisputeRate args.merchant_id := by
      rw [mockDisputeRate_eq]
      have : (0:ℚ) ≤ ((checksum args.merchant_id % 25 : ℕ) : ℚ) := Nat.cast_nonneg _
      linarith
    exact jsRound_le_hundred (by linarith)
  · intro args
    simp only [mockCheckVelocity]
    constructor
    · exact jsRound_nonneg (le_min (by norm_num) (le_max_left _ _))
    · exact jsRound_le_hundred (min_le_left _ _)
  · intro args
    obtain ⟨h1, -, -⟩ := mockPredictDispute_eval args
    rw [h1]
    unfold specDisputeProb
    exact ⟨le_min (by norm_num) (le_max_left _ _), min_le_left _ _⟩

/-- C1: whenever the remote call fails in any declared way — the fetch
throws, the response status is not 2xx, or the body is malformed — every
operation returns exactly its mock generator's result (the embedded
operations are total functions, so nothing is raised to the caller); a 2xx
simulator response lacking its `simulation` object also falls back;
`checkVelocity` is always the mock; and for every `analyzeVAMP` call whose
remote call throws, the returned `vamp_status` is one of
standard/monitored/excessive, determined by the mock's fraud-rate cut
points 0.65 and 0.9. -/
theorem fallback_total_on_remote_failure (cfg : GuardScoreConfig) (s : ℕ) :
    (∀ (args : TransactionArgs) (b : Except Unit AssessPayload),
      (scoreTransaction cfg .throws args).1 = mockScoreTransaction cfg args ∧
      (scoreTransaction cfg (.resp false s b) args).1 = mockScoreTransaction cfg args ∧
      (scoreTransaction cfg (.resp true s (.error ())) args).1 = mockScoreTransaction cfg args) ∧
    (∀ (args : MerchantLookupArgs) (b : Except Unit MerchantPayload),
      (lookupMerchant cfg .throws args).1 = mockLookupMerchant cfg args ∧
      (lookupMerchant cfg (.resp false s b) args).1 = mockLookupMerchant cfg args ∧
      (lookupMerchant cfg (.resp true s (.error ())) args).1 = mockLookupMerchant cfg args) ∧
    (∀ (args : AgentVerifyArgs) (b : Except Unit ScreenPayload),
      (verifyAgent cfg .throws args).1 = mockVerifyAgent args ∧
      (verifyAgent cfg (.resp false s b) args).1 = mockVerifyAgent args ∧
      (verifyAgent cfg (.resp true s (.error ())) args).1 = mockVerifyAgent args) ∧
    (∀ (args : DisputeArgs) (b : Except Unit SimulatePayload) (eng : Option String),
      (predictDispute cfg .throws args).1 = mockPredictDispute args ∧
      (predictDispute cfg (.resp false s b) args).1 = mockPredictDispute args ∧
      (predictDispute cfg (.resp true s (.error ())) args).1 = mockPredictDispute args ∧
      (predictDispute cfg (.resp true s (.ok ⟨none, eng⟩)) args).1 = mockPredictDispute args) ∧
    (∀ args : VelocityArgs, checkVelocity cfg args = (mockCheckVelocity args, 0)) ∧
    (∀ (args : CrossRailArgs) (b : Except Unit GuardPayload),
      (checkCrossRail cfg .throws args).1 = mockCheckCrossRail cfg args ∧
      (checkCrossRail cfg (.resp false s b) args).1 = mockCheckCrossRail cfg args ∧
      (checkCrossRail cfg (.resp true s (.error ())) args).1 = mockCheckCrossRail cfg args) ∧
    (∀ (args : VAMPArgs) (b : Except Unit SimulatePayload) (eng : Option String),
      (analyzeVAMP cfg .throws args).1 = mockAnalyzeVAMP args ∧
      (analyzeVAMP cfg (.resp false s b) args).1 = mockAnalyzeVAMP args ∧
      (analyzeVAMP cfg (.resp true s (.error ())) args).1 = mockAnalyzeVAMP args ∧
      (analyzeVAMP cfg (.resp true s (.ok ⟨none, eng⟩)) args).1 = mockAnalyzeVAMP args) ∧
    (∀ args : VAMPArgs,
      (analyzeVAMP cfg .throws args).1.vamp_status =
        (if mockFraudRate args.merchant_id < 65/100 then .standard
         else if mockFraudRate args.merchant_id < 9/10 then .monitored
         else .excessive) ∧
      ((analyzeVAMP cfg .throws args).1.vamp_status = .standard ∨
       (analyzeVAMP cfg .throws args).1.vamp_status = .monitored ∨
       (analyzeVAMP cfg .throws args).1.vamp_status = .excessive)) := by
  have hvamp : ∀ args : VAMPArgs,
      (analyzeVAMP cfg .throws args).1 = mockAnalyzeVAMP args := by
    intro args
    by_cases h : demoMode cfg = true <;>
      simp [analyzeVAMP, h]
  refine ⟨?_, ?_, ?_, ?_, ?_, ?_, ?_, ?_⟩
  · intro args b
    by_cases h : demoMode cfg = true <;>
      refine ⟨?_, ?_, ?_⟩ <;> simp [scoreTransaction, h]
  · intro args b
    by_cases h : demoMode cfg = true <;>
    by_cases h2 : strTruthy args.merchant_id = true <;>
      refine ⟨?_, ?_, ?_⟩ <;> simp [lookupMerchant, h, h2]
  · intro args b
    by_cases h : demoMode cfg = true <;>
      refine ⟨?_, ?_, ?_⟩ <;> simp [verifyAgent, h]
  · intro args b eng
    by_cases h : demoMode cfg = true <;>
      refine ⟨?_, ?_, ?_, ?_⟩ <;> simp [predictDispute, h]
  · intro args
    rfl
  · intro args b
    by_cases h : demoMode cfg = true <;>
      refine ⟨?_, ?_, ?_⟩ <;> simp [checkCrossRail, h]
  · intro args b eng
    by_cases h : demoMode cfg = true <;>
      refine ⟨?_, ?_, ?_, ?_⟩ <;> simp [analyzeVAMP, h]
  · intro args
    rw [hvamp args]
    constructor
    · simp only [mockAnalyzeVAMP]
    · simp only [mockAnalyzeVAMP]
      split_ifs <;> simp

/-- C2: constructed with the sentinel key "demo" or an absent key, every one
of the seven operations issues zero outbound calls and returns the mock
generator's result whatever the remote would have answered; and
`checkVelocity` issues zero outbound calls and returns the mock in every
mode, demo or live. -/
theorem demo_mode_issues_no_network (cfg : GuardScoreConfig)
    (h : demoMode cfg = true) :
    (∀ (remote : FetchOutcome AssessPayload) (args : TransactionArgs),
      scoreTransaction cfg remote args = (mockScoreTransaction cfg args, 0)) ∧
    (∀ (remote : FetchOutcome MerchantPayload) (args : MerchantLookupArgs),
      lookupMerchant cfg remote args = (mockLookupMerchant cfg args, 0)) ∧
    (∀ (remote : FetchOutcome ScreenPayload) (args : AgentVerifyArgs),
      verifyAgent cfg remote args = (mockVerifyAgent args, 0)) ∧
    (∀ (remote : FetchOutcome SimulatePayload) (args : DisputeArgs),
      predictDispute cfg remote args = (mockPredictDispute args, 0)) ∧
    (∀ args : VelocityArgs,
      checkVelocity cfg args = (mockCheckVelocity args, 0)) ∧
    (∀ (remote : FetchOutcome GuardPayload) (args : CrossRailArgs),
      checkCrossRail cfg remote args = (mockCheckCrossRail cfg args, 0)) ∧
    (∀ (remote : FetchOutcome SimulatePayload) (args : VAMPArgs),
      analyzeVAMP cfg remote args = (mockAnalyzeVAMP args, 0)) ∧
    (∀ (cfg2 : GuardScoreConfig) (args : VelocityArgs),
      checkVelocity cfg2 args = (mockCheckVelocity args, 0)) := by
  refine ⟨?_, ?_, ?_, ?_, ?_, ?_, ?_, ?_⟩
  · intro remote args
    simp [scoreTransaction, h]
  · intro remote args
    simp [lookupMerchant, h]
  · intro remote args
    simp [verifyAgent, h]
  · intro remote args
    simp [predictDispute, h]
  · intro args
    rfl
  · intro remote args
    simp [checkCrossRail, h]
  · intro remote args
    simp [analyzeVAMP, h]
  · intro cfg2 args
    rfl

/-- Witness for C2: the demo configuration runs scoreTransaction on the
scenario transaction with a throwing remote, returning the mock with zero
outbound calls. -/
theorem demo_mode_issues_no_network_witness :
    scoreTransaction sampleDemoCfg .throws scenarioTxArgs =
      (mockScoreTransaction sampleDemoCfg scenarioTxArgs, 0) :=
  (demo_mode_issues_no_network sampleDemoCfg rfl).1 .throws scenarioTxArgs

/-- C9: in every configuration — including live mode with a real key — a
lookupMerchant request that supplies no merchant_id performs no remote call
and returns exactly the deterministic mock profile derived from the first
supplied identifier (merchant_name, then website, then "unknown"). -/
theorem lookupMerchant_without_id_uses_mock (cfg : GuardScoreConfig)
    (remote : FetchOutcome MerchantPayload) (args : MerchantLookupArgs)
    (h : args.merchant_id = none) :
    lookupMerchant cfg remote args = (mockLookupMerchant cfg args, 0) ∧
    (mockLookupMerchant cfg args).guardscore =
      40 + ((checksum (jsOrStr args.merchant_name
        (jsOrStr args.website "unknown")) % 55 : ℕ) : ℚ) ∧
    (mockLookupMerchant cfg args).risk_level =
      riskLevel cfg (mockLookupMerchant cfg args).guardscore := by
  refine ⟨?_, ?_, ?_⟩
  · simp [lookupMerchant, h, strTruthy]
  · simp [mockLookupMerchant, h, jsOrStr]
  · simp only [mockLookupMerchant]

/-- Witness for C9: a live-mode lookup by merchant_name only, with a
throwing remote, returns the mock profile with zero outbound calls. -/
theorem lookupMerchant_without_id_uses_mock_witness :
    lookupMerchant sampleLiveCfg .throws ⟨none, some "Acme", none⟩ =
      (mockLookupMerchant sampleLiveCfg ⟨none, some "Acme", none⟩, 0) :=
  (lookupMerchant_without_id_uses_mock sampleLiveCfg .throws
    ⟨none, some "Acme", none⟩ rfl).1

end MerchantGuard
